import Mathlib

/-!
Verification of the route-registration, middleware-stack composition and
schema-generation subsystem of `src/fastapi/applications.py`.

The Python class `FastAPI` is shallowly embedded: each method that the
claims touch becomes a Lean function on an explicit state.  Collaborators
that live outside this repository's source (`get_openapi` and the two
exception handlers from `fastapi.exception_handlers`) are modelled from
the specification, as marked in their doc comments.
-/

namespace Spec2Proof

/-! ## Definitions: middleware stack builder

A middleware descriptor (`starlette.middleware.Middleware`) is a
constructor `cls` taking the inner app plus its stored `options`, exactly
the call `middleware.cls(app, **middleware.options)` in
`build_middleware_stack`.  `α` is the type of composed apps, `ω` the type
of the options bag. -/

structure MwDescriptor (α : Type) (ω : Type) where
  cls : α → ω → α
  options : ω

/-- Embedding of `FastAPI.build_middleware_stack` (applications.py lines
232-237): `app = self.router`, then `for middleware in reversed(self.user_middleware):
app = middleware.cls(app, **middleware.options)`, then `return app`.
A Python loop over `reversed(l)` is a left fold over `l.reverse`. -/
def build_middleware_stack (user_middleware : List (MwDescriptor α ω)) (router : α) : α :=
  user_middleware.reverse.foldl (fun app m => m.cls app m.options) router

/-- The reference fold written from the specification's words (section 4.2):
start with `current = terminalHandler`, iterate the middleware list in
reverse declaration order, at each step replace `current` with
`descriptor.implementation(current, descriptor.options)`, return the final
`current`.  Processing the list in reverse declaration order means the
head of the declared list is applied last, which is this recursion. -/
def spec_compose : List (MwDescriptor α ω) → α → α
  | [], current => current
  | m :: rest, current => m.cls (spec_compose rest current) m.options

/-! ### Trace semantics for execution order

To talk about which middleware "runs first on the way in" and "first on
the way out" we instantiate `α` with apps that append events to a log: a
named middleware logs `enter:<name>` before calling the inner app and
`exit:<name>` after it returns, and the terminal router logs `router`. -/

abbrev TraceApp := List String → List String

def trace_router : TraceApp := fun log => log ++ ["router"]

def named_mw (n : String) : MwDescriptor TraceApp Unit :=
  { cls := fun inner _ => fun log => inner (log ++ ["enter:" ++ n]) ++ ["exit:" ++ n]
    options := () }

def enter_tag (n : String) : String := "enter:" ++ n

def exit_tag (n : String) : String := "exit:" ++ n

/-- The composed stack for a declared list of named middlewares. -/
def stack_of (names : List String) : TraceApp :=
  build_middleware_stack (names.map named_mw) trace_router

/-- The event trace of one request through the composed stack. -/
def trace_of (names : List String) : List String := stack_of names []

/-! ### Application state: user_middleware list and add_middleware -/

/-- The middleware-relevant slice of the `FastAPI` instance state:
`self.router`, `self.user_middleware`, `self.middleware_stack`. -/
structure MwAppState (α : Type) (ω : Type) where
  router : α
  user_middleware : List (MwDescriptor α ω)
  middleware_stack : α

/-- Embedding of the constructor fragment
`self.user_middleware = list(middleware or [])` followed by
`self.middleware_stack = self.build_middleware_stack()`
(applications.py lines 156-157). -/
def init_mw_state (router : α) (middleware : List (MwDescriptor α ω)) : MwAppState α ω :=
  { router := router
    user_middleware := middleware
    middleware_stack := build_middleware_stack middleware router }

/-- Embedding of `FastAPI.add_middleware` (applications.py lines 353-360):
`self.user_middleware.insert(0, Middleware(middleware_class, **options))`
then `self.middleware_stack = self.build_middleware_stack()`. -/
def add_middleware (s : MwAppState α ω) (m : MwDescriptor α ω) : MwAppState α ω :=
  { s with
    user_middleware := m :: s.user_middleware
    middleware_stack := build_middleware_stack (m :: s.user_middleware) s.router }

def add_named (s : MwAppState TraceApp Unit) (n : String) : MwAppState TraceApp Unit :=
  add_middleware s (named_mw n)

/-- The state reached from a freshly constructed app (no constructor
middleware) by a sequence of `add_middleware` calls, earliest first. -/
def after_adds (names : List String) : MwAppState TraceApp Unit :=
  names.foldl add_named (init_mw_state trace_router [])

/-! ## Definitions: route registry and schema generation -/

/-- A registered route entry: a leaf endpoint (path, allowed verbs,
inclusion-in-schema flag) or a mount of a sub-registry under a path
prefixed by `pre`. -/
inductive RouteEntry where
  | endpoint (path : String) (methods : List String) (include_in_schema : Bool)
  | mount (pre : String) (sub : List RouteEntry)

/-- Reference enumeration of every endpoint registered in a registry, with
its effective prefix-joined path, allowed verbs and inclusion flag,
accumulating mount prefixes by concatenation (spec sections 4.1 and 8). -/
def walk_endpoints : String → List RouteEntry → List (String × List String × Bool)
  | _, [] => []
  | pre, RouteEntry.endpoint p ms inc :: rest => (pre ++ p, ms, inc) :: walk_endpoints pre rest
  | pre, RouteEntry.mount mp sub :: rest =>
      walk_endpoints (pre ++ mp) sub ++ walk_endpoints pre rest

/-- Modelled from the spec: the `paths` section assembled by `get_openapi`
(`fastapi.openapi.utils`, not part of this repository's source).  Per
section 4.4 the walk recursively traverses the registry; for each endpoint
with inclusion-in-schema true it emits its operations (one per allowed
verb) keyed by its effective path, prefix-accumulated through enclosing
mounts; endpoints with inclusion-in-schema false are skipped. -/
def openapi_paths : String → List RouteEntry → List (String × List String)
  | _, [] => []
  | pre, RouteEntry.endpoint p ms inc :: rest =>
      (if inc then [(pre ++ p, ms)] else []) ++ openapi_paths pre rest
  | pre, RouteEntry.mount mp sub :: rest =>
      openapi_paths (pre ++ mp) sub ++ openapi_paths pre rest

structure OpenapiMeta where
  title : String
  version : String
  description : String
deriving DecidableEq

/-- The generated API description, carrying the info block and the paths
section (the parts the claims are about). -/
structure SchemaDoc where
  title : String
  version : String
  description : String
  paths : List (String × List String)
deriving DecidableEq

/-- Modelled from the spec: `get_openapi` is called with the facade's
metadata and routes (applications.py lines 243-254) but its body is not in
this repository's source; per section 4.4 it assembles the info block from
the metadata and the paths section by the inclusion-respecting walk.  It
always returns a document carrying the info block, hence a non-empty
(truthy) Python dict. -/
def get_openapi (meta : OpenapiMeta) (routes : List RouteEntry) : SchemaDoc :=
  { title := meta.title
    version := meta.version
    description := meta.description
    paths := openapi_paths "" routes }

/-- The schema-relevant slice of the `FastAPI` instance state: the facade
metadata, `self.routes`, and the `self.openapi_schema` cache, which the
constructor initialises to `None` (line 164). -/
structure AppState where
  meta : OpenapiMeta
  routes : List RouteEntry
  openapi_schema : Option SchemaDoc

/-- Embedding of `FastAPI.openapi` (applications.py lines 239-255):
`if self.openapi_schema:` return the cached document, else compute it via
`get_openapi`, store it in `self.openapi_schema`, and return it.  A stored
document is a dict that always carries the info block, so the Python
truthiness test coincides with the cache being set. -/
def openapi (s : AppState) : AppState × SchemaDoc :=
  match s.openapi_schema with
  | some d => (s, d)
  | none =>
      let d := get_openapi s.meta s.routes
      ({ s with openapi_schema := some d }, d)

/-! ## Definitions: documentation route setup (constructor lines 190-225) -/

/-- The four documentation URL configuration values; the empty string
stands for Python `None` (both are falsy in the `if self.docs_url:`
tests). -/
structure DocCfg where
  openapi_url : String
  docs_url : String
  redoc_url : String
  swagger_ui_oauth2_redirect_url : String

def default_doc_cfg : DocCfg :=
  { openapi_url := "/openapi.json"
    docs_url := "/docs"
    redoc_url := "/redoc"
    swagger_ui_oauth2_redirect_url := "/docs/oauth2-redirect" }

/-- Embedding of the Python test `url.startswith("/")`: for the
one-character pattern "/" this holds exactly when the first character of
`url` is the path separator. -/
def starts_with_slash (url : String) : Bool :=
  match url.data with
  | [] => false
  | c :: _ => c = '/'

/-- One `if url: assert url.startswith("/") ...; self.add_route(url, ...,
include_in_schema=False)` block of the constructor.  A failed assert
aborts construction, modelled as `Except.error`.  The documentation
endpoints are GET endpoints (spec section 6). -/
def check_doc_route (url : String) (msg : String) (routes : List RouteEntry) :
    Except String (List RouteEntry) :=
  if url ≠ "" then
    if starts_with_slash url then
      Except.ok (routes ++ [RouteEntry.endpoint url ["GET"] false])
    else Except.error msg
  else Except.ok routes

/-- The fourth block (applications.py lines 217-225): as written in the
source the assert's parentheses are unbalanced; read with the parentheses
balanced it asserts the two-element tuple
`(self.swagger_ui_oauth2_redirect_url.startswith("/"), "...")`, which is
always truthy, so no check is performed before the route is added. -/
def add_oauth2_redirect_route (url : String) (routes : List RouteEntry) : List RouteEntry :=
  if url ≠ "" then routes ++ [RouteEntry.endpoint url ["GET"] false] else routes

/-- Embedding of the documentation-route section of `FastAPI.__init__`
(applications.py lines 190-225): the openapi, docs and redoc URLs are each
checked to start with "/" and registered with `include_in_schema=False`;
the oauth2-redirect URL is registered without an effective check (see
`add_oauth2_redirect_route`). -/
def setup_doc_routes (cfg : DocCfg) (routes : List RouteEntry) :
    Except String (List RouteEntry) :=
  match check_doc_route cfg.openapi_url "openapi_url should start with /" routes with
  | Except.error e => Except.error e
  | Except.ok r1 =>
    match check_doc_route cfg.docs_url "docs_url should start with /" r1 with
    | Except.error e => Except.error e
    | Except.ok r2 =>
      match check_doc_route cfg.redoc_url "redoc_url should start with /" r2 with
      | Except.error e => Except.error e
      | Except.ok r3 =>
          Except.ok (add_oauth2_redirect_route cfg.swagger_ui_oauth2_redirect_url r3)

/-! ## Definitions: exception translation table -/

/-- A key of `self.exception_handlers`: an integer status code or an
exception kind (`StarletteHTTPException`, `RequestValidationError`, or
some other exception type). -/
inductive ExcKey where
  | status (code : Int)
  | starletteHTTPException
  | requestValidationError
  | other (name : String)
deriving DecidableEq

/-- The handler functions that can be stored in the table, as opaque tags
whose behaviour is given by `run_handler`. -/
inductive ExcHandler where
  | httpExceptionHandler
  | requestValidationHandler
  | custom (tag : String)
deriving DecidableEq

/-- A raised condition: an HTTP-level failure carrying status and detail,
or a request-validation failure carrying per-field error descriptors. -/
inductive ExcPayload where
  | http (status_code : Int) (detail : String)
  | validation (errors : List (String × String))
deriving DecidableEq

/-- The JSON body of an error response: `{"detail": <string>}` or a
structured list of per-field error descriptors. -/
inductive ErrorBody where
  | detailBody (detail : String)
  | fieldErrors (errors : List (String × String))
deriving DecidableEq

structure ErrResponse where
  status_code : Int
  body : ErrorBody
deriving DecidableEq

/-- Modelled from the spec: `http_exception_handler` and
`request_validation_exception_handler` live in
`fastapi.exception_handlers`, outside this repository's source.  Per
section 4.3 the HTTP handler serializes `{detail: ...}` as a JSON body
with the exception's status, and the validation handler serializes the
per-field error list with status 422.  A handler applied to a payload of a
kind it is not registered for is unspecified and returns `none`. -/
def run_handler : ExcHandler → ExcPayload → Option ErrResponse
  | ExcHandler.httpExceptionHandler, ExcPayload.http status detail =>
      some ⟨status, ErrorBody.detailBody detail⟩
  | ExcHandler.requestValidationHandler, ExcPayload.validation errors =>
      some ⟨422, ErrorBody.fieldErrors errors⟩
  | _, _ => none

/-- Embedding of `FastAPI.add_exception_handler` (applications.py lines
278-287): both branches of the `isinstance` test perform the same dict
assignment `self.exception_handlers[key] = handler`.  The dict is modelled
as an association list without duplicate keys: assignment replaces the
entry for an existing key in place and otherwise appends. -/
def add_exception_handler :
    List (ExcKey × ExcHandler) → ExcKey → ExcHandler → List (ExcKey × ExcHandler)
  | [], key, h => [(key, h)]
  | p :: rest, key, h =>
      if p.1 = key then (key, h) :: rest else p :: add_exception_handler rest key h

/-- Dict lookup `self.exception_handlers[key]`. -/
def lookup_handler (t : List (ExcKey × ExcHandler)) (key : ExcKey) : Option ExcHandler :=
  (t.find? (fun p => p.1 = key)).map (fun p => p.2)

/-- Embedding of `FastAPI.setup` (applications.py lines 227-230): register
the HTTP-exception handler under `StarletteHTTPException` and the
validation handler under `RequestValidationError`. -/
def setup_handlers (t : List (ExcKey × ExcHandler)) : List (ExcKey × ExcHandler) :=
  add_exception_handler
    (add_exception_handler t ExcKey.starletteHTTPException ExcHandler.httpExceptionHandler)
    ExcKey.requestValidationError ExcHandler.requestValidationHandler

/-- Embedding of the constructor fragment (applications.py lines 158-163):
`self.exception_handlers = dict(exception_handlers or {})` followed by
`self.setup()`. -/
def init_exception_handlers (user : List (ExcKey × ExcHandler)) : List (ExcKey × ExcHandler) :=
  setup_handlers user

/-- A concrete application state used by cache witnesses: fresh facade
with default metadata, one registered endpoint, empty schema cache. -/
def demo_state : AppState :=
  { meta := { title := "FastAPI", version := "0.1.0", description := "" }
    routes := [RouteEntry.endpoint "/" ["GET"] true]
    openapi_schema := none }

/-! ## Helper lemmas -/

theorem build_middleware_stack_cons (m : MwDescriptor α ω)
    (rest : List (MwDescriptor α ω)) (router : α) :
    build_middleware_stack (m :: rest) router
      = m.cls (build_middleware_stack rest router) m.options := by
  simp [build_middleware_stack, List.foldl_append]

theorem stack_of_closed (names : List String) (log : List String) :
    stack_of names log
      = log ++ names.map enter_tag ++ ["router"] ++ names.reverse.map exit_tag := by
  induction names generalizing log with
  | nil => simp [stack_of, build_middleware_stack, trace_router]
  | cons n rest ih =>
      have hcons : stack_of (n :: rest) log
          = stack_of rest (log ++ ["enter:" ++ n]) ++ ["exit:" ++ n] := by
        simp only [stack_of, List.map_cons]
        rw [build_middleware_stack_cons]
        rfl
      rw [hcons, ih]
      simp [enter_tag, exit_tag, List.append_assoc]

theorem trace_of_closed (names : List String) :
    trace_of names = names.map enter_tag ++ ["router"] ++ names.reverse.map exit_tag := by
  simpa [trace_of] using stack_of_closed names []

theorem after_adds_router (names : List String) :
    (after_adds names).router = trace_router := by
  suffices h : ∀ (s : MwAppState TraceApp Unit),
      (names.foldl add_named s).router = s.router by
    exact h _
  induction names with
  | nil => intro s; rfl
  | cons n rest ih => intro s; simpa [add_named, add_middleware] using ih _

theorem after_adds_user_middleware (names : List String) :
    (after_adds names).user_middleware = names.reverse.map named_mw := by
  suffices h : ∀ (s : MwAppState TraceApp Unit),
      (names.foldl add_named s).user_middleware
        = names.reverse.map named_mw ++ s.user_middleware by
    simpa [after_adds, init_mw_state] using h (init_mw_state trace_router [])
  induction names with
  | nil => intro s; simp
  | cons n rest ih =>
      intro s
      simp [add_named, add_middleware, ih, List.append_assoc]

theorem after_adds_stack (names : List String) :
    (after_adds names).middleware_stack = stack_of names.reverse := by
  cases names with
  | nil => rfl
  | cons n rest =>
      have h : ∀ (l : List String) (s : MwAppState TraceApp Unit), l ≠ [] →
          (l.foldl add_named s).middleware_stack
            = build_middleware_stack ((l.foldl add_named s).user_middleware)
                (l.foldl add_named s).router := by
        intro l
        induction l with
        | nil => intro s hne; exact absurd rfl hne
        | cons a t ih =>
            intro s _
            cases t with
            | nil => rfl
            | cons b u => simpa using ih (add_named s a) (by simp)
      have hgoal := h (n :: rest) (init_mw_state trace_router []) (by simp)
      unfold after_adds
      rw [hgoal]
      have h1 := after_adds_user_middleware (n :: rest)
      have h2 := after_adds_router (n :: rest)
      unfold after_adds at h1 h2
      rw [h1, h2]
      rfl

theorem check_doc_route_ok {url msg : String} {routes res : List RouteEntry}
    (h : check_doc_route url msg routes = Except.ok res) :
    ∀ r ∈ res, r ∈ routes ∨ ∃ u, r = RouteEntry.endpoint u ["GET"] false := by
  intro r hr
  unfold check_doc_route at h
  by_cases h1 : url ≠ ""
  · rw [if_pos h1] at h
    by_cases h2 : starts_with_slash url = true
    · rw [if_pos h2] at h
      cases h
      rcases List.mem_append.mp hr with hl | hrr
      · exact Or.inl hl
      · simp at hrr
        exact Or.inr ⟨url, hrr⟩
    · rw [if_neg h2] at h
      cases h
  · rw [if_neg h1] at h
    cases h
    exact Or.inl hr

theorem add_oauth2_redirect_route_mem {url : String} {routes : List RouteEntry}
    (r : RouteEntry) (hr : r ∈ add_oauth2_redirect_route url routes) :
    r ∈ routes ∨ ∃ u, r = RouteEntry.endpoint u ["GET"] false := by
  unfold add_oauth2_redirect_route at hr
  by_cases h1 : url ≠ ""
  · rw [if_pos h1] at hr
    rcases List.mem_append.mp hr with hl | hrr
    · exact Or.inl hl
    · simp at hrr
      exact Or.inr ⟨url, hrr⟩
  · rw [if_neg h1] at hr
    exact Or.inl hr

theorem lookup_add_self (t : List (ExcKey × ExcHandler)) (key : ExcKey) (h : ExcHandler) :
    lookup_handler (add_exception_handler t key h) key = some h := by
  induction t with
  | nil => simp [add_exception_handler, lookup_handler]
  | cons p rest ih =>
      by_cases hp : p.1 = key
      · simp [add_exception_handler, hp, lookup_handler]
      · simp only [add_exception_handler, hp, if_false]
        simp only [lookup_handler, List.find?] at ih ⊢
        simp [hp, ih]

theorem lookup_add_other (t : List (ExcKey × ExcHandler)) (key : ExcKey) (h : ExcHandler)
    (key2 : ExcKey) (hne : key2 ≠ key) :
    lookup_handler (add_exception_handler t key h) key2 = lookup_handler t key2 := by
  have hks : ¬ key = key2 := fun he => hne he.symm
  induction t with
  | nil =>
      simp [add_exception_handler, lookup_handler, List.find?, hks]
  | cons p rest ih =>
      by_cases hp : p.1 = key
      · rw [show add_exception_handler (p :: rest) key h = (key, h) :: rest by
          simp [add_exception_handler, hp]]
        have hpk : ¬ p.1 = key2 := by rw [hp]; exact hks
        simp [lookup_handler, List.find?, hks, hpk]
      · rw [show add_exception_handler (p :: rest) key h
            = p :: add_exception_handler rest key h by
          simp [add_exception_handler, hp]]
        by_cases hq : p.1 = key2
        · simp [lookup_handler, List.find?, hq]
        · simp only [lookup_handler, List.find?] at ih ⊢
          simp [hq, ih]

/-! ## Claim theorems about the middleware subsystem -/

/-- Claim C1: `build_middleware_stack` composes the stack exactly by the
specified fold — starting from the router, iterating the user middleware
list in reverse declaration order, replacing the current app with
`descriptor.implementation(current, descriptor.options)` at each step —
so for every middleware list the composed callable equals the reference
fold `spec_compose` written from the specification's words. -/
theorem build_middleware_stack_eq_spec_fold (α ω : Type)
    (l : List (MwDescriptor α ω)) (router : α) :
    build_middleware_stack l router = spec_compose l router := by
  induction l with
  | nil => rfl
  | cons m rest ih => rw [build_middleware_stack_cons, ih]; rfl

/-- Claim C2 counterexample: for the declared middleware list
`["m1", "m2"]` the last-declared middleware `m2` is NOT the outermost
wrapper — the first event of the request trace is `enter:m1`, not
`enter:m2`, so the last-declared middleware does not see the request
first. -/
theorem last_declared_outermost_counterexample :
    (trace_of ["m1", "m2"]).head? = some "enter:m1"
  ∧ ¬ (trace_of ["m1", "m2"]).head? = some "enter:m2" := by
  constructor
  · decide
  · decide

/-- Claim C2 amended: for every middleware list, the middleware declared
FIRST (the head of the user-visible declared list) becomes the outermost
wrapper of the composed stack, so it runs first on the way in and last on
the way out; equivalently, `build_middleware_stack` applies the head
descriptor as the outermost constructor. -/
theorem first_declared_outermost (n : String) (rest : List String) :
    trace_of (n :: rest) = enter_tag n :: (trace_of rest ++ [exit_tag n])
  ∧ ∀ (α ω : Type) (m : MwDescriptor α ω) (ms : List (MwDescriptor α ω)) (router : α),
      build_middleware_stack (m :: ms) router
        = m.cls (build_middleware_stack ms router) m.options := by
  constructor
  · have hcons : trace_of (n :: rest)
        = stack_of rest ([] ++ ["enter:" ++ n]) ++ ["exit:" ++ n] := by
      simp only [trace_of, stack_of, List.map_cons]
      rw [build_middleware_stack_cons]
      rfl
    rw [hcons, stack_of_closed, trace_of, stack_of_closed]
    simp [enter_tag, exit_tag, List.append_assoc]
  · intro α ω m ms router
    exact build_middleware_stack_cons m ms router

/-- Claim C3 counterexample: after `add_middleware` of `"a"` and then of
`"b"`, the most recently added middleware `b` is NOT innermost: the full
trace is `[enter:b, enter:a, router, exit:a, exit:b]`, so the wrapper
applied closest to the terminal handler (the enter event immediately
preceding `router`) is `a`, not `b`. -/
theorem most_recent_innermost_counterexample :
    (after_adds ["a", "b"]).middleware_stack []
      = ["enter:b", "enter:a", "router", "exit:a", "exit:b"]
  ∧ ((after_adds ["a", "b"]).middleware_stack []).get? 1 = some "enter:a"
  ∧ ((after_adds ["a", "b"]).middleware_stack []).get? 2 = some "router"
  ∧ ¬ ((after_adds ["a", "b"]).middleware_stack []).get? 1 = some "enter:b" := by
  refine ⟨by decide, by decide, by decide, by decide⟩

/-- Claim C3 amended: `add_middleware` inserts the new descriptor at
position 0 of the declared list and triggers a full rebuild of the
composed stack; under this position-0 insertion combined with the
reverse-order composition, the most recently added middleware ends up
OUTERMOST in the composed stack (it wraps everything added before it,
seeing the request first and the response last), not innermost. -/
theorem add_middleware_position_zero_outermost :
    (∀ (α ω : Type) (s : MwAppState α ω) (m : MwDescriptor α ω),
        (add_middleware s m).user_middleware = m :: s.user_middleware
      ∧ (add_middleware s m).router = s.router
      ∧ (add_middleware s m).middleware_stack
          = build_middleware_stack (m :: s.user_middleware) s.router)
  ∧ ∀ (names : List String) (n : String),
      (after_adds (names ++ [n])).middleware_stack []
        = enter_tag n :: ((after_adds names).middleware_stack [] ++ [exit_tag n]) := by
  constructor
  · intro α ω s m
    exact ⟨rfl, rfl, rfl⟩
  · intro names n
    rw [after_adds_stack, after_adds_stack]
    rw [stack_of_closed, stack_of_closed]
    simp [List.append_assoc]

/-- Claim C4: for every three middleware m1, m2, m3 added via sequential
`add_middleware` calls in that order, the composed stack executes m3
first on request entry and m1 first on response exit: the full trace is
`[enter:m3, enter:m2, enter:m1, router, exit:m1, exit:m2, exit:m3]`. -/
theorem sequential_adds_execution_order (m1 m2 m3 : String) :
    (after_adds [m1, m2, m3]).middleware_stack []
      = [enter_tag m3, enter_tag m2, enter_tag m1, "router",
         exit_tag m1, exit_tag m2, exit_tag m3] := by
  rw [after_adds_stack, stack_of_closed]
  simp

/-! ## Claim theorems about the schema and exception subsystems -/

/-- Claim C5: the schema endpoint is idempotent with a write-once cache:
the first invocation of `openapi` computes the document via `get_openapi`
and stores it, every later invocation returns exactly the stored document
and leaves the cache unchanged, and this holds regardless of any
route-registry mutation `f` performed between the invocations. -/
theorem openapi_write_once_cache :
    (∀ (s : AppState), s.openapi_schema = none →
        openapi s
          = ({ s with openapi_schema := some (get_openapi s.meta s.routes) },
             get_openapi s.meta s.routes))
  ∧ (∀ (s : AppState) (d : SchemaDoc), s.openapi_schema = some d → openapi s = (s, d))
  ∧ (∀ (s : AppState) (d : SchemaDoc) (f : List RouteEntry → List RouteEntry),
        s.openapi_schema = some d →
        (openapi { s with routes := f s.routes }).2 = d
      ∧ (openapi { s with routes := f s.routes }).1.openapi_schema = some d) := by
  refine ⟨?_, ?_, ?_⟩
  · intro s h
    simp [openapi, h]
  · intro s d h
    simp [openapi, h]
  · intro s d f h
    simp [openapi, h]

/-- Witness for C5 at a concrete state: a fresh facade with an empty
cache computes and stores the generated document on the first call. -/
theorem openapi_write_once_cache_witness :
    openapi demo_state
      = ({ demo_state with
            openapi_schema := some (get_openapi demo_state.meta demo_state.routes) },
         get_openapi demo_state.meta demo_state.routes) :=
  openapi_write_once_cache.1 demo_state rfl

/-- Claim C6: the generated paths section is exactly the
inclusion-filtered endpoint enumeration — every endpoint registered with
inclusion-in-schema true appears under its effective prefix-joined path
with exactly its allowed verbs, and no endpoint registered with
inclusion-in-schema false ever appears; moreover every route the
constructor's documentation-route section adds (the four doc routes) is
registered with inclusion-in-schema false, so none of them appears in the
generated document. -/
theorem schema_round_trip :
    (∀ (pre : String) (routes : List RouteEntry),
        openapi_paths pre routes
          = (walk_endpoints pre routes).filterMap
              (fun e => if e.2.2 then some (e.1, e.2.1) else none))
  ∧ (∀ (cfg : DocCfg) (routes res : List RouteEntry),
        setup_doc_routes cfg routes = Except.ok res →
        ∀ r ∈ res, r ∈ routes ∨ ∃ u, r = RouteEntry.endpoint u ["GET"] false) := by
  constructor
  · intro pre routes
    induction pre, routes using openapi_paths.induct with
    | case1 pre => simp [openapi_paths, walk_endpoints]
    | case2 pre p ms inc rest ih =>
        cases inc <;>
          simp [openapi_paths, walk_endpoints, List.filterMap_cons, ih]
    | case3 pre mp sub rest ih1 ih2 =>
        simp [openapi_paths, walk_endpoints, List.filterMap_append, ih1, ih2]
  · intro cfg routes res h r hr
    unfold setup_doc_routes at h
    cases h1 : check_doc_route cfg.openapi_url "openapi_url should start with /" routes with
    | error e => simp only [h1] at h; exact Except.noConfusion h
    | ok r1 =>
        simp only [h1] at h
        cases h2 : check_doc_route cfg.docs_url "docs_url should start with /" r1 with
        | error e => simp only [h2] at h; exact Except.noConfusion h
        | ok r2 =>
            simp only [h2] at h
            cases h3 : check_doc_route cfg.redoc_url "redoc_url should start with /" r2 with
            | error e => simp only [h3] at h; exact Except.noConfusion h
            | ok r3 =>
                simp only [h3] at h
                replace h := (Except.ok.inj h).symm
                subst h
                rcases add_oauth2_redirect_route_mem r hr with h4 | h4
                · rcases check_doc_route_ok h3 r h4 with h5 | h5
                  · rcases check_doc_route_ok h2 r h5 with h6 | h6
                    · rcases check_doc_route_ok h1 r h6 with h7 | h7
                      · exact Or.inl h7
                      · exact Or.inr h7
                    · exact Or.inr h6
                  · exact Or.inr h5
                · exact Or.inr h4

/-- Witness for C6 at a concrete configuration: the docs route added by
the default constructor configuration carries inclusion-in-schema false. -/
theorem schema_round_trip_witness :
    RouteEntry.endpoint "/docs" ["GET"] false ∈ ([] : List RouteEntry)
  ∨ ∃ u, RouteEntry.endpoint "/docs" ["GET"] false
      = RouteEntry.endpoint u ["GET"] false :=
  schema_round_trip.2 default_doc_cfg []
    [RouteEntry.endpoint "/openapi.json" ["GET"] false,
     RouteEntry.endpoint "/docs" ["GET"] false,
     RouteEntry.endpoint "/redoc" ["GET"] false,
     RouteEntry.endpoint "/docs/oauth2-redirect" ["GET"] false]
    rfl
    (RouteEntry.endpoint "/docs" ["GET"] false)
    (List.Mem.tail _ (List.Mem.head _))

/-- Claim C7 (code bug): a malformed `docs_url` (or `openapi_url` or
`redoc_url`) not starting with "/" does abort construction, but a
malformed `swagger_ui_oauth2_redirect_url` does NOT: the source's fourth
assert (applications.py lines 217-220) has its parentheses scrambled so
that, read with balanced parentheses, it asserts an always-truthy tuple,
and construction succeeds, registering the malformed route. -/
theorem oauth2_redirect_url_check_missing :
    setup_doc_routes { default_doc_cfg with docs_url := "docs" } []
      = Except.error "docs_url should start with /"
  ∧ setup_doc_routes
      { default_doc_cfg with swagger_ui_oauth2_redirect_url := "oauth2-redirect" } []
      = Except.ok
          [RouteEntry.endpoint "/openapi.json" ["GET"] false,
           RouteEntry.endpoint "/docs" ["GET"] false,
           RouteEntry.endpoint "/redoc" ["GET"] false,
           RouteEntry.endpoint "oauth2-redirect" ["GET"] false] := by
  constructor
  · rfl
  · rfl

/-- Claim C8: construction installs exactly two default exception
translations: `StarletteHTTPException` maps to the handler serializing
`{detail: ...}` with the exception's status, and
`RequestValidationError` maps to the handler serializing the per-field
error list with status 422. -/
theorem setup_installs_two_default_handlers :
    init_exception_handlers []
      = [(ExcKey.starletteHTTPException, ExcHandler.httpExceptionHandler),
         (ExcKey.requestValidationError, ExcHandler.requestValidationHandler)]
  ∧ (∀ (status : Int) (detail : String),
        run_handler ExcHandler.httpExceptionHandler (ExcPayload.http status detail)
          = some { status_code := status, body := ErrorBody.detailBody detail })
  ∧ (∀ (errors : List (String × String)),
        run_handler ExcHandler.requestValidationHandler (ExcPayload.validation errors)
          = some { status_code := 422, body := ErrorBody.fieldErrors errors }) :=
  ⟨rfl, fun _ _ => rfl, fun _ => rfl⟩

/-- Claim C9: `add_exception_handler` stores the handler under its key,
overwriting any previously registered handler for the same key (last
write wins), and leaves the entry of every other key unchanged. -/
theorem add_exception_handler_last_write_wins
    (t : List (ExcKey × ExcHandler)) (key : ExcKey) (h : ExcHandler) :
    lookup_handler (add_exception_handler t key h) key = some h
  ∧ ∀ key2, key2 ≠ key →
      lookup_handler (add_exception_handler t key h) key2 = lookup_handler t key2 :=
  ⟨lookup_add_self t key h, fun key2 hne => lookup_add_other t key h key2 hne⟩

/-- Witness for C9 at concrete inputs: overwriting the handler stored for
status code 404 takes effect, and the entry for a different key is
untouched. -/
theorem add_exception_handler_last_write_wins_witness :
    lookup_handler
        (add_exception_handler [(ExcKey.status 404, ExcHandler.custom "old")]
          (ExcKey.status 404) (ExcHandler.custom "new"))
        (ExcKey.status 404) = some (ExcHandler.custom "new")
  ∧ lookup_handler
        (add_exception_handler [(ExcKey.status 404, ExcHandler.custom "old")]
          (ExcKey.status 404) (ExcHandler.custom "new"))
        ExcKey.starletteHTTPException
      = lookup_handler [(ExcKey.status 404, ExcHandler.custom "old")]
          ExcKey.starletteHTTPException :=
  ⟨(add_exception_handler_last_write_wins _ _ _).1,
   (add_exception_handler_last_write_wins _ _ _).2 _ (by decide)⟩

/-- Claim C10: when the user middleware list is empty,
`build_middleware_stack` returns the router (terminal dispatcher) itself
unchanged: composing zero middleware is the identity on the terminal
handler. -/
theorem build_middleware_stack_empty_is_router (α ω : Type) (router : α) :
    build_middleware_stack ([] : List (MwDescriptor α ω)) router = router := rfl

end Spec2Proof
